import Mathlib

/-!
Shallow embedding of `src/index.js` (a Node.js CGI boilerplate script).

The script is single-threaded; its observable behaviour is a function of
the request environment (`process.env`), the list of stdin chunks, and the
process-wide mutable variable `httpHeader`.  We model the mutable variable
as an explicit `Option HeaderKind` threaded through every function, and
the bytes written to stdout as a `String` result.  `console.log(a, b, c)`
joins its arguments with single spaces and appends a newline.
-/

set_option maxRecDepth 10000

namespace NodeCgi

/-- The values the JS global `httpHeader` can hold once assigned: the
`type` tags `'plain'` and `'html'` of the `httpHeaders` table, or JS
`undefined` — assigned when the first gate call's kind names a member
inherited from `Object.prototype`, whose `.type` is `undefined`.  The
initial `null` is modelled by `none` at the `Option` level. -/
inductive HeaderKind where
  | plain
  | html
  | undef
deriving DecidableEq, Repr

/-- One entry of the `httpHeaders` constant: a `type` tag and the raw
header text `httpHeader`. -/
structure HeaderDef where
  type : HeaderKind
  httpHeader : String
deriving DecidableEq, Repr

/-- `httpHeaders.plain` from the source. -/
def httpHeadersPlain : HeaderDef :=
  { type := HeaderKind.plain
    httpHeader := "Content-Type: text/plain; charset=UTF-8\n\n" }

/-- `httpHeaders.html` from the source. -/
def httpHeadersHtml : HeaderDef :=
  { type := HeaderKind.html
    httpHeader := "Content-Type: text/html; charset=UTF-8\n\n" }

/-- The own property names of `Object.prototype` in Node's V8 runtime.
For these keys `httpHeaders[key]` does not yield `undefined`: the access
walks the prototype chain and returns the truthy inherited member (a
function, or `Object.prototype` itself for `__proto__`). -/
def objectPrototypeMembers : List String :=
  ["constructor", "hasOwnProperty", "isPrototypeOf", "propertyIsEnumerable",
   "toLocaleString", "toString", "valueOf", "__proto__", "__defineGetter__",
   "__defineSetter__", "__lookupGetter__", "__lookupSetter__"]

/-- A truthy value the property access `httpHeaders[type]` can produce:
one of the two table entries, or a member inherited from
`Object.prototype`.  An inherited member has no `type` and no
`httpHeader` property — both read as JS `undefined`. -/
inductive GateValue where
  | entry (d : HeaderDef)
  | protoMember
deriving DecidableEq, Repr

/-- JS property access `httpHeaders[type]` on the two-key object literal:
the own properties `"plain"` and `"html"` first, then the prototype chain
(`Object.prototype`), and `none` (JS `undefined`) for every other key. -/
def httpHeadersAccess (ty : String) : Option GateValue :=
  if ty = "plain" then some (GateValue.entry httpHeadersPlain)
  else if ty = "html" then some (GateValue.entry httpHeadersHtml)
  else if ty ∈ objectPrototypeMembers then some GateValue.protoMember
  else none

/-- `console.log(args...)`: arguments joined by single spaces, then a
terminating newline, appended to stdout. -/
def consoleLog (args : List String) : String :=
  String.intercalate " " args ++ "\n"

/-- `writeHttpHeader(type)`: if the global `httpHeader` is already set
(`httpHeader !== null`, which also holds for `undefined`) do nothing;
otherwise take `httpHeaders[type] || httpHeaders.plain` — the fallback
fires only when the access yields `undefined`, not for a truthy member
inherited from `Object.prototype` — then `console.log` its `httpHeader`
property (the header text for a table entry, the text `undefined` for an
inherited member) and store its `type` property in the global (the tag
for a table entry, JS `undefined` for an inherited member). -/
def writeHttpHeader (ty : String) (st : Option HeaderKind) :
    Option HeaderKind × String :=
  match st with
  | some _ => (st, "")
  | none =>
      let specifiedHttpHeader :=
        (httpHeadersAccess ty).getD (GateValue.entry httpHeadersPlain)
      match specifiedHttpHeader with
      | GateValue.entry d => (some d.type, consoleLog [d.httpHeader])
      | GateValue.protoMember =>
          (some HeaderKind.undef, consoleLog ["undefined"])

/-- JS falsiness of the global `httpHeader` as tested by `!httpHeader`
in `onError`: `null` (`none`) and `undefined` are falsy, the strings
`'plain'` and `'html'` are truthy. -/
def headerStateFalsy : Option HeaderKind → Bool
  | none => true
  | some HeaderKind.undef => true
  | some _ => false

/-- `onError(error)`: ensure a header was written (plain if the global is
still unset), then print the error in the format matching the recorded
header kind.  The error argument is modelled by its printed text. -/
def onError (error : String) (st : Option HeaderKind) :
    Option HeaderKind × String :=
  let step :=
    if headerStateFalsy st then writeHttpHeader "plain" st else (st, "")
  match step.1 with
  | some HeaderKind.html =>
      (step.1, step.2 ++ consoleLog
        ["<pre style=\"color: #f00; font-weight: bold;\">Error :<br>", error,
         "</pre>"])
  | _ =>
      (step.1, step.2 ++ consoleLog ["\nError :", error])

/-- `readPostBody()`: starts from the empty string and appends every
stdin chunk in arrival order (`for await (const chunk of process.stdin)`);
the value is returned only once the whole chunk list (the closed stream)
has been consumed. -/
def readPostBody (chunks : List String) : String :=
  chunks.foldl (fun postBody chunk => postBody ++ chunk) ""

/-- The request environment `process.env`: an association list of
string keys and string values. -/
def Env : Type := List (String × String)

/-- Reading `process.env[key]`: `some` value for a present key,
`none` (JavaScript `undefined`) for an absent one. -/
def envLookup (env : Env) (key : String) : Option String :=
  (List.find? (fun p => p.1 = key) env).map (fun p => p.2)

/-- JavaScript template-literal coercion of an environment read:
`undefined` interpolates as the text `"undefined"`. -/
def jsTemplate : Option String → String
  | none => "undefined"
  | some s => s

/-- JavaScript truthiness of the `postBody` parameter of `main`:
`undefined` (absent) and the empty string are falsy. -/
def postBodyTruthy : Option String → Bool
  | none => false
  | some s => !s.isEmpty

/-- Node's `console.log` rendering of the flat string-valued `process.env`
object (util.inspect style): `\x7b KEY: 'VALUE', ... \x7d`, or `\x7b\x7d`
when empty.  CGI environment keys are identifier-like, so no key quoting
is modelled. -/
def renderEnv (env : Env) : String :=
  let sq := String.singleton (Char.ofNat 39)
  match env with
  | [] => "\x7b\x7d"
  | _ =>
      "\x7b " ++
      String.intercalate ", "
        (env.map (fun p => p.1 ++ ": " ++ sq ++ p.2 ++ sq)) ++
      " \x7d"

/-- The fixed document preamble template literal of `main`. -/
def htmlPreamble : String :=
  "<!DOCTYPE html>\n<html lang=\"ja\">\n  <head>\n    <meta charset=\"UTF-8\">\n    <meta http-equiv=\"X-UA-Compatible\" content=\"IE=Edge\">\n    <meta name=\"viewport\" content=\"width=device-width, initial-scale=1\">\n    <title>Hello Node.js CGI</title>\n  </head>\n  <body>"

/-- The fixed document epilogue template literal of `main`. -/
def htmlEpilogue : String :=
  "  </body>\n</html>"

/-- The form template literal of `main`, with `$\x7bprocess.env.SCRIPT_NAME\x7d`
interpolated into the `action` attribute. -/
def formHtml (env : Env) : String :=
  "<form action=\"" ++ jsTemplate (envLookup env "SCRIPT_NAME") ++
  "\" method=\"POST\">\n  <input type=\"text\" name=\"text\" value=\"\">\n  <button name=\"submit-btn\" value=\"submit-btn-value\">Post Submit</button>\n</form>"

/-- The conditional Post Body section of `main` (three `console.log`
calls), emitted only when `postBody` is truthy. -/
def postBodySectionOut (b : String) : String :=
  consoleLog ["<hr>"] ++ consoleLog ["<h2>Post Body</h2>"] ++
  consoleLog ["<pre>", b, "</pre>"]

/-- `main(postBody)`: emit the html header through the gate, the document
preamble, the environment dump, the Post Body section when the body is
truthy, the POST test form, and the epilogue. -/
def main (postBody : Option String) (env : Env) (st : Option HeaderKind) :
    Option HeaderKind × String :=
  let headerStep := writeHttpHeader "html" st
  (headerStep.1,
   headerStep.2 ++
   consoleLog [htmlPreamble] ++
   consoleLog ["<h1>Hello Node.js CGI</h1>"] ++
   consoleLog ["<pre>", renderEnv env, "</pre>"] ++
   (if postBodyTruthy postBody then postBodySectionOut (postBody.getD "")
    else "") ++
   consoleLog ["<hr>"] ++ consoleLog ["<h2>POST Test</h2>"] ++
   consoleLog [formHtml env] ++
   consoleLog [htmlEpilogue])

/-- The entry IIFE: when `process.env.REQUEST_METHOD === 'POST'` read the
whole body from stdin and pass it to `main`; otherwise call `main()` with
no body argument. -/
def entry (env : Env) (stdinChunks : List String) (st : Option HeaderKind) :
    Option HeaderKind × String :=
  if envLookup env "REQUEST_METHOD" = some "POST" then
    main (some (readPostBody stdinChunks)) env st
  else
    main none env st

/-- A sequence of calls to the header gate, threading the global state and
concatenating everything written. -/
def runHeaderCalls (kinds : List String) (st : Option HeaderKind) :
    Option HeaderKind × String :=
  match kinds with
  | [] => (st, "")
  | k :: rest =>
      let first := writeHttpHeader k st
      let later := runHeaderCalls rest first.1
      (later.1, first.2 ++ later.2)

/-- Specification-side concatenation of a chunk list, by structural
recursion (arrival order, nothing dropped, nothing reordered). -/
def concatChunks : List String → String
  | [] => ""
  | c :: rest => c ++ concatChunks rest

/-- The table entry the gate resolves for a kind that does not collide
with an inherited `Object.prototype` member: the own entry for `"plain"`
and `"html"`, the plain fallback for everything else. -/
def resolvedEntry (ty : String) : HeaderDef :=
  if ty = "html" then httpHeadersHtml else httpHeadersPlain

/-! ## General lemmas about the embedding -/

/-- `consoleLog` of a single argument is that argument plus a newline. -/
theorem consoleLog_single (s : String) : consoleLog [s] = s ++ "\n" := rfl

/-- Once the header gate is set, any further sequence of calls leaves the
state untouched and writes nothing. -/
theorem runHeaderCalls_of_set (kinds : List String) (h : HeaderKind) :
    runHeaderCalls kinds (some h) = (some h, "") := by
  induction kinds with
  | nil => rfl
  | cons k rest ih => simp [runHeaderCalls, writeHttpHeader, ih]

/-- Folding chunk accumulation from any accumulator appends the
structural concatenation of the chunks. -/
theorem foldl_append_eq_concatChunks (chunks : List String) :
    ∀ acc : String,
      chunks.foldl (fun postBody chunk => postBody ++ chunk) acc =
        acc ++ concatChunks chunks := by
  induction chunks with
  | nil => intro acc; simp [concatChunks, String.append_empty]
  | cons c rest ih =>
      intro acc
      simp [concatChunks, List.foldl_cons, ih, String.append_assoc]

/-! ## The claims -/

/-- C1 counterexample: with first kind `"toString"` the gate writes the
text `undefined` and no Content-Type header block at all — the inherited
`Object.prototype.toString` is truthy, so the plain fallback never fires,
its `httpHeader` property is `undefined`, and the state is wedged at JS
`undefined` rather than at a header kind.  This refutes the claim that a
sequence of calls with any kinds writes exactly one header block of the
first call's kind. -/
theorem headerGate_toString_no_header :
    (runHeaderCalls ["toString"] none).2 = "undefined\n" ∧
    ¬ (("Content-Type").data <:+: (runHeaderCalls ["toString"] none).2.data) ∧
    (runHeaderCalls ["toString"] none).1 = some HeaderKind.undef := by
  decide

/-- C1 (amended): for every sequence of one or more calls to the header
gate whose first kind is not an inherited `Object.prototype` member name,
exactly one header block is written — the one of the first call's
resolved kind — and the state after the first call is that resolved
kind; moreover, for any kinds whatsoever, once the state is set every
further call is a no-op on both output and state (so the state never
changes and never reverts to unset). -/
theorem headerGate_first_call_wins (k : String) (rest : List String)
    (hk : k ∉ objectPrototypeMembers) :
    runHeaderCalls (k :: rest) none =
      (some (resolvedEntry k).type, consoleLog [(resolvedEntry k).httpHeader]) ∧
    (∀ (kinds : List String) (h : HeaderKind),
      runHeaderCalls kinds (some h) = (some h, "")) := by
  constructor
  · by_cases hp : k = "plain"
    · subst hp
      simp [runHeaderCalls, writeHttpHeader, httpHeadersAccess, resolvedEntry,
        runHeaderCalls_of_set, String.append_empty]
    · by_cases hh : k = "html"
      · subst hh
        simp [runHeaderCalls, writeHttpHeader, httpHeadersAccess, resolvedEntry,
          runHeaderCalls_of_set, String.append_empty]
      · simp [runHeaderCalls, writeHttpHeader, httpHeadersAccess, hp, hh, hk,
          resolvedEntry, runHeaderCalls_of_set, String.append_empty]
  · exact runHeaderCalls_of_set

/-- Witness for the amended C1 at the concrete first kind `"html"`
followed by a second call with kind `"plain"`. -/
theorem headerGate_first_call_wins_witness :
    runHeaderCalls ["html", "plain"] none =
      (some (resolvedEntry "html").type,
       consoleLog [(resolvedEntry "html").httpHeader]) :=
  (headerGate_first_call_wins "html" ["plain"] (by decide)).1

/-- C2: invoking the error interceptor while the header state is unset
writes exactly the plain-text header block followed by the
`Error :`-labelled error text, and leaves the state at `plain`; the
output contains no HTML error block and only one header block. -/
theorem onError_before_header (e : String) :
    onError e none =
      (some HeaderKind.plain,
       consoleLog [httpHeadersPlain.httpHeader] ++
         consoleLog ["\nError :", e]) := rfl

/-- C3: invoking the error interceptor after the header state was set to
`html` writes exactly one inline styled `<pre>` error block and nothing
else — in particular no second header block — and keeps the state. -/
theorem onError_after_html_header (e : String) :
    onError e (some HeaderKind.html) =
      (some HeaderKind.html,
       consoleLog
         ["<pre style=\"color: #f00; font-weight: bold;\">Error :<br>", e,
          "</pre>"]) := rfl

/-- C4: `readPostBody` returns exactly the structural concatenation of
all chunks in arrival order (nothing dropped, nothing reordered, nothing
partial), and in particular returns `"abc"` on chunks
`["a", "b", "c"]`. -/
theorem readPostBody_complete :
    (∀ chunks : List String, readPostBody chunks = concatChunks chunks) ∧
    readPostBody ["a", "b", "c"] = "abc" := by
  constructor
  · intro chunks
    simpa [String.empty_append] using
      foldl_append_eq_concatChunks chunks ""
  · rfl

/-- C6 counterexample: `"toString"` is not a recognized kind, yet the
gate does not fall back to the plain header — `httpHeaders["toString"]`
is the truthy inherited `Object.prototype.toString`, so the gate prints
the text `undefined` and records JS `undefined` instead. -/
theorem headerGate_toString_not_plain_fallback :
    writeHttpHeader "toString" none ≠
      (some HeaderKind.plain, consoleLog [httpHeadersPlain.httpHeader]) ∧
    writeHttpHeader "toString" none =
      (some HeaderKind.undef, consoleLog ["undefined"]) := by
  decide

/-- C6 (amended): calling the header gate with a kind that is neither
`"plain"` nor `"html"` and is not an inherited `Object.prototype` member
name, while no header was emitted, writes the plain-text header block and
sets the state to `plain` (silent fallback, no failure). -/
theorem headerGate_fallback (k : String)
    (h1 : k ≠ "plain") (h2 : k ≠ "html")
    (h3 : k ∉ objectPrototypeMembers) :
    writeHttpHeader k none =
      (some HeaderKind.plain, consoleLog [httpHeadersPlain.httpHeader]) := by
  simp [writeHttpHeader, httpHeadersAccess, h1, h2, h3, httpHeadersPlain]

/-- Witness for the amended C6 at the concrete unrecognized kind
`"json"`. -/
theorem headerGate_fallback_witness :
    writeHttpHeader "json" none =
      (some HeaderKind.plain, consoleLog [httpHeadersPlain.httpHeader]) :=
  headerGate_fallback "json" (by decide) (by decide) (by decide)

/-- C7: the first call to the header gate with kind `plain` writes the
bytes of the `text/plain` content-type line, the blank line terminating
the header block, and the newline `console.log` itself appends — and
nothing else; likewise for `html` with `text/html`. -/
theorem headerGate_first_call_bytes :
    writeHttpHeader "plain" none =
      (some HeaderKind.plain,
       "Content-Type: text/plain; charset=UTF-8\n" ++ "\n" ++ "\n") ∧
    writeHttpHeader "html" none =
      (some HeaderKind.html,
       "Content-Type: text/html; charset=UTF-8\n" ++ "\n" ++ "\n") := by
  exact ⟨by decide, by decide⟩

/-- The request environment of the end-to-end scenario. -/
def scenarioEnv : Env :=
  [("REQUEST_METHOD", "POST"), ("SCRIPT_NAME", "/app.cgi")]

/-- The full stdout bytes of the end-to-end scenario (stdin delivers the
single chunk `text=hi`). -/
def scenarioOutput : String :=
  (entry scenarioEnv ["text=hi"] none).2

set_option maxRecDepth 10000 in
/-- C5: in the end-to-end scenario the output begins with the html header
block, contains the environment dump entry showing `REQUEST_METHOD` as
`POST` (rendered `REQUEST_METHOD: 'POST'`), contains the Post Body
section showing `text=hi`, and contains a form whose action attribute is
`/app.cgi`. -/
theorem endToEnd_scenario :
    ("Content-Type: text/html; charset=UTF-8\n\n").data <+:
      scenarioOutput.data ∧
    ("REQUEST_METHOD: " ++ String.singleton (Char.ofNat 39) ++ "POST" ++
      String.singleton (Char.ofNat 39)).data <:+: scenarioOutput.data ∧
    ("<h2>Post Body</h2>\n<pre> text=hi </pre>\n").data <:+:
      scenarioOutput.data ∧
    ("<form action=\"/app.cgi\" method=\"POST\">").data <:+:
      scenarioOutput.data := by
  exact ⟨by decide, by decide, by decide, by decide⟩

/-- C8: for any environment whose request method is not `POST`, the entry
flow never invokes the body reader — it runs `main` with no body — and
its output is identical for any two stdin chunk lists. -/
theorem nonPost_ignores_stdin (env : Env) (chunks1 chunks2 : List String)
    (h : envLookup env "REQUEST_METHOD" ≠ some "POST") :
    entry env chunks1 none = main none env none ∧
    entry env chunks1 none = entry env chunks2 none := by
  simp [entry, h]

/-- Witness for C8: a GET request with stdin `secret` behaves like one
with empty stdin. -/
theorem nonPost_ignores_stdin_witness :
    entry [("REQUEST_METHOD", "GET")] ["secret"] none =
      main none [("REQUEST_METHOD", "GET")] none ∧
    entry [("REQUEST_METHOD", "GET")] ["secret"] none =
      entry [("REQUEST_METHOD", "GET")] [] none :=
  nonPost_ignores_stdin [("REQUEST_METHOD", "GET")] ["secret"] []
    (by decide)

/-- C9: a POST request whose stdin closes with no data produces the same
result as running `main` with no body at all, and the Post Body section
appears in the output exactly when the supplied body is a non-empty
string: the output of `main` splits as a fixed prefix and suffix with the
section inserted if and only if the body is non-empty. -/
theorem postEmptyBody_eq_noBody (env : Env)
    (h : envLookup env "REQUEST_METHOD" = some "POST") :
    entry env [] none = main none env none ∧
    (∀ b : String, ∃ pre post,
      (main none env none).2 = pre ++ post ∧
      (main (some b) env none).2 =
        pre ++ ((if b = "" then "" else postBodySectionOut b) ++ post)) := by
  have hempty : ("" : String).isEmpty = true := rfl
  constructor
  · have h0 : readPostBody ([] : List String) = "" := rfl
    simp only [entry, if_pos h, h0]
    simp [main, postBodyTruthy, hempty]
  · intro b
    refine ⟨(writeHttpHeader "html" none).2 ++ consoleLog [htmlPreamble] ++
      consoleLog ["<h1>Hello Node.js CGI</h1>"] ++
      consoleLog ["<pre>", renderEnv env, "</pre>"],
      consoleLog ["<hr>"] ++ consoleLog ["<h2>POST Test</h2>"] ++
      consoleLog [formHtml env] ++ consoleLog [htmlEpilogue], ?_, ?_⟩
    · simp [main, postBodyTruthy, String.append_assoc, String.empty_append]
    · by_cases hb : b = ""
      · subst hb
        simp [main, postBodyTruthy, hempty, String.append_assoc,
          String.empty_append]
      · have hbt : postBodyTruthy (some b) = true := by
          cases hbe : b.isEmpty with
          | false => simp [postBodyTruthy, hbe]
          | true => exact absurd ((String.isEmpty_iff b).1 hbe) hb
        simp [main, hbt, hb, Option.getD, String.append_assoc]

/-- Witness for C9 (first component) at a concrete POST environment. -/
theorem postEmptyBody_eq_noBody_witness :
    entry [("REQUEST_METHOD", "POST")] [] none =
      main none [("REQUEST_METHOD", "POST")] none :=
  (postEmptyBody_eq_noBody [("REQUEST_METHOD", "POST")] (by decide)).1

/-- C10: when the environment has no `SCRIPT_NAME` key, `main` still
produces its full output, and the form it emits carries the literal
action attribute value `undefined`. -/
theorem missingScriptName_action_undefined (env : Env)
    (h : envLookup env "SCRIPT_NAME" = none) :
    ∃ pre post, (main none env none).2 =
      pre ++ ("<form action=\"undefined\" method=\"POST\">" ++ post) := by
  have hform : formHtml env =
      "<form action=\"undefined\" method=\"POST\">" ++
      "\n  <input type=\"text\" name=\"text\" value=\"\">\n  <button name=\"submit-btn\" value=\"submit-btn-value\">Post Submit</button>\n</form>" := by
    simp only [formHtml, h, jsTemplate]
    decide
  refine ⟨(writeHttpHeader "html" none).2 ++ consoleLog [htmlPreamble] ++
    consoleLog ["<h1>Hello Node.js CGI</h1>"] ++
    consoleLog ["<pre>", renderEnv env, "</pre>"] ++
    consoleLog ["<hr>"] ++ consoleLog ["<h2>POST Test</h2>"],
    "\n  <input type=\"text\" name=\"text\" value=\"\">\n  <button name=\"submit-btn\" value=\"submit-btn-value\">Post Submit</button>\n</form>" ++
      "\n" ++ consoleLog [htmlEpilogue], ?_⟩
  calc (main none env none).2 =
      (writeHttpHeader "html" none).2 ++ consoleLog [htmlPreamble] ++
        consoleLog ["<h1>Hello Node.js CGI</h1>"] ++
        consoleLog ["<pre>", renderEnv env, "</pre>"] ++
        consoleLog ["<hr>"] ++ consoleLog ["<h2>POST Test</h2>"] ++
        (formHtml env ++ "\n") ++ consoleLog [htmlEpilogue] := by
        simp [main, postBodyTruthy, consoleLog_single, String.append_assoc,
          String.empty_append]
    _ = _ := by
        rw [hform]
        simp only [String.append_assoc]

/-- Witness for C10 at the empty environment. -/
theorem missingScriptName_action_undefined_witness :
    ∃ pre post, (main none ([] : Env) none).2 =
      pre ++ ("<form action=\"undefined\" method=\"POST\">" ++ post) :=
  missingScriptName_action_undefined [] (by decide)

end NodeCgi
